import Mathlib

/-!
Shallow embedding of the event-dispatch and render-diff core of
`src/Proof_of_Concept/tui.h` (a minimal terminal-UI runtime), together
with theorems settling the specification claims about it.

Machine integers (`uint16_t`, array indices) are modelled as `Nat`: every
arithmetic expression in the embedded code (`p.x + p.width` etc.) is
computed in C after integer promotion to `int`, so no wrap-around occurs
and the `Nat` model is exact.  Pointers to components are modelled as
opaque identifiers (a type with decidable equality) where only identity
matters, and as records where the pointed-to data matters.
-/

/-- `Position` struct: x, y, width, height in terminal cells (uint16_t). -/
structure Position where
  x : Nat
  y : Nat
  width : Nat
  height : Nat
deriving DecidableEq, Repr

/-- The `mouse_action` enum of `MouseEvent`. -/
inductive MouseAction where
  | button1
  | button2
  | button3
  | move
deriving DecidableEq, Repr

/-- `MouseEvent` struct. -/
structure MouseEvent where
  mouse_x : Nat
  mouse_y : Nat
  mouse_action : MouseAction
deriving DecidableEq, Repr

/-- `KeyEvent` struct; `key` is the wchar_t codepoint. -/
structure KeyEvent where
  key : Nat
deriving DecidableEq, Repr

/-- `ResizeEvent` struct. -/
structure ResizeEvent where
  new_width : Nat
  new_height : Nat
deriving DecidableEq, Repr

/-- The `EventKind` enum: END, RESIZE, MOUSE, KEY. -/
inductive EventKind where
  | END
  | RESIZE
  | MOUSE
  | KEY
deriving DecidableEq, Repr

/-- The `Event` struct.  The C union of the three payloads is modelled as
three separate fields; the code only ever reads the payload matching the
tag it wrote (or reads uninitialized data, which we model by passing the
arbitrary initial field values in explicitly). -/
structure Event where
  handled : Bool
  kind : EventKind
  resizeEvent : ResizeEvent
  mouseEvent : MouseEvent
  keyEvent : KeyEvent
deriving DecidableEq, Repr

/-- The dispatch-relevant part of the `Component` struct: its rectangle and
its two optional event-handler function pointers.  A handler returns the
C `int` that the dispatch loop assigns to `e.handled`, modelled as `Bool`.
(`children`, `parent`, `render`, `resize` and the kind-tagged private
storage play no role in the dispatch loop embedded below.) -/
structure Component where
  pos : Position
  onClick : Option (MouseEvent → Bool)
  onKeypress : Option (KeyEvent → Bool)

/-- `inComponent(c, x, y)`:
`(x >= p.x) & (x <= p.x + p.width) & (y >= p.y) & (y <= p.y + p.height)`. -/
def inComponent (c : Component) (x y : Nat) : Bool :=
  (decide (x ≥ c.pos.x)) && (decide (x ≤ c.pos.x + c.pos.width)) &&
  (decide (y ≥ c.pos.y)) && (decide (y ≤ c.pos.y + c.pos.height))

/-- The `for (size_t i = 1; i < nc; i++)` loop of `raiseComponent`, acting on
the tail of the list (index 1 onward), with `tmp` the evicted element carried
across iterations.  At each slot: if the current element (`despot`) is `c`,
store `tmp` there and break; otherwise store `tmp` and carry `despot` on. -/
def raiseLoop {α : Type} [DecidableEq α] (c : α) (tmp : α) : List α → List α
  | [] => []
  | despot :: rest =>
    if despot = c then tmp :: rest
    else tmp :: raiseLoop c despot rest

/-- `raiseComponent(c)` over the registry list (components as opaque
pointer identities): return unchanged if the registry has ≤ 1 members or
`c` is already at slot 0; otherwise write `c` into slot 0 and run the
rotation loop on the remaining slots. -/
def raiseComponent {α : Type} [DecidableEq α] (c : α) (l : List α) : List α :=
  if l.length ≤ 1 then l
  else
    match l with
    | [] => l
    | tmp :: rest => if tmp = c then l else c :: raiseLoop c tmp rest

/-- The dispatch `for` loop of `handle_event` (lines 306–323), carried out
from loop index `i` over the remaining components.  Returns the event as
mutated by the loop (each invoked handler's result is assigned to
`e.handled`; a `true` result breaks) together with the trace of loop
indices at which a handler was actually invoked, in invocation order. -/
def dispatchLoopAux (e : Event) (i : Nat) : List Component → Event × List Nat
  | [] => (e, [])
  | comp :: rest =>
    match e.kind with
    | EventKind.KEY =>
      match comp.onKeypress with
      | some h =>
        let r := h e.keyEvent
        let e' : Event := { e with handled := r }
        if r then (e', [i])
        else
          let p := dispatchLoopAux e' (i + 1) rest
          (p.1, i :: p.2)
      | none => dispatchLoopAux e (i + 1) rest
    | EventKind.MOUSE =>
      match comp.onClick with
      | some h =>
        if inComponent comp e.mouseEvent.mouse_x e.mouseEvent.mouse_y then
          let r := h e.mouseEvent
          let e' : Event := { e with handled := r }
          if r then (e', [i])
          else
            let p := dispatchLoopAux e' (i + 1) rest
            (p.1, i :: p.2)
        else dispatchLoopAux e (i + 1) rest
      | none => dispatchLoopAux e (i + 1) rest
    | _ => dispatchLoopAux e (i + 1) rest

/-- The dispatch loop started at index 0, as `handle_event` runs it. -/
def dispatchLoop (e : Event) (l : List Component) : Event × List Nat :=
  dispatchLoopAux e 0 l

/-- A component is eligible to receive a given mouse event: it has an
`onClick` handler and its rectangle contains the pointer position (the two
conditions the loop tests, in that order). -/
def mouseEligible (e : Event) (c : Component) : Bool :=
  c.onClick.isSome && inComponent c e.mouseEvent.mouse_x e.mouseEvent.mouse_y

/-- A component is eligible to receive a key event: it has an `onKeypress`
handler. -/
def keyEligible (c : Component) : Bool :=
  c.onKeypress.isSome

/-- The terminal-side state the runtime saves at `tui_init` and writes back
at `tui_deinit`: the termios attributes, the three signal handlers, and the
locale.  Each is modelled as an opaque `Nat` identifier, since the code
only copies them around. -/
structure TermEnv where
  tio : Nat
  sigint : Nat
  sigterm : Nat
  sigwinch : Nat
  locale : Nat
deriving DecidableEq, Repr

/-- One externally visible write performed by `tui_deinit`, in program
order: `signal(SIGINT, …)`, `signal(SIGTERM, …)`, `signal(SIGWINCH, …)`,
`tcsetattr(1, TCSANOW, …)`, `setlocale(LC_ALL, …)`, and the
`write(1, restore_term, …)` of the terminal-restore escape sequence. -/
inductive SideEffect where
  | setSignalInt (h : Nat)
  | setSignalTerm (h : Nat)
  | setSignalWinch (h : Nat)
  | setTermAttrs (t : Nat)
  | setLocale (l : Nat)
  | writeRestoreSeq
deriving DecidableEq, Repr

/-- The global state of the runtime: `_tui_active`, the two latches and the
window size of `tui_globalcontext`, whether `rootComponent` is non-NULL,
the component registry, the saved values `_old_tio`, `_old_sigint`,
`_old_sigterm`, `_old_sigwinch`, `_old_locale`, and the current terminal
environment the process's writes act on. -/
structure GlobalState where
  active : Bool
  exiting : Bool
  needs_resize : Bool
  window_width : Nat
  window_height : Nat
  rootAssigned : Bool
  components : List Component
  saved_tio : Nat
  saved_sigint : Nat
  saved_sigterm : Nat
  saved_sigwinch : Nat
  saved_locale : Nat
  term : TermEnv

/-- `tui_deinit()`: if `!_tui_active` return immediately (no state change,
no writes); otherwise clear `_tui_active`, swap the saved signal handlers
back in, restore the saved termios attributes, reset the locale and write
the terminal-restore sequence — returned as the new state paired with the
list of writes performed, in program order. -/
def tui_deinit (s : GlobalState) : GlobalState × List SideEffect :=
  if s.active = false then (s, [])
  else
    ({ s with
        active := false
        term := { tio := s.saved_tio, sigint := s.saved_sigint,
                  sigterm := s.saved_sigterm, sigwinch := s.saved_sigwinch,
                  locale := s.saved_locale } },
     [SideEffect.setSignalInt s.saved_sigint,
      SideEffect.setSignalTerm s.saved_sigterm,
      SideEffect.setSignalWinch s.saved_sigwinch,
      SideEffect.setTermAttrs s.saved_tio,
      SideEffect.setLocale s.saved_locale,
      SideEffect.writeRestoreSeq])

/-- Outcome of one `handle_event()` call.
`fatal msg` models `tui_error(msg)` (deinit, print, `exit(1)`);
`nullDeref` models the call `tui_globalcontext.rootComponent->resize(…)`
made while `rootComponent` is NULL (undefined behavior; under the guards
of the source this is the only way the resize path can be reached);
`normal e s resizeCalls invoked` is an ordinary return of event `e` with
new global state `s`, the list of `Position` arguments passed to the root
component's `resize`, and the trace of dispatch-loop indices whose handler
was invoked. -/
inductive TuiOutcome where
  | fatal (msg : String)
  | nullDeref
  | normal (e : Event) (s : GlobalState) (resizeCalls : List Position)
      (invoked : List Nat)

/-- `handle_event()` (lines 262–326).  `termSize` is the
`(ws_col, ws_row)` pair the `updateSize()` ioctl would report; `einit` is
the arbitrary value held by the uninitialized local `Event e` at entry
(the source never initializes it on the raw-input path).
Guards exactly as written in the source: error when `!_tui_active`, then
error when `tui_globalcontext.rootComponent` is non-NULL; then the
`_exiting` check (deinit and return an END event), then the
`_needs_resize` check (clear the latch, adopt the queried size, call the
root's `resize` with `(0,0,w,h)`, return a handled RESIZE event carrying
the new size), else the dispatch loop on the uninitialized event. -/
def handle_event (s : GlobalState) (termSize : Nat × Nat) (einit : Event) :
    TuiOutcome :=
  if s.active = false then TuiOutcome.fatal "Root component not initialized."
  else if s.rootAssigned = true then TuiOutcome.fatal "Tui is not active."
  else if s.exiting = true then
    TuiOutcome.normal { einit with kind := EventKind.END, handled := true }
      (tui_deinit s).1 [] []
  else if s.needs_resize = true then
    if s.rootAssigned = false then TuiOutcome.nullDeref
    else
      let w := termSize.1
      let h := termSize.2
      let s' : GlobalState :=
        { s with needs_resize := false, window_width := w, window_height := h }
      TuiOutcome.normal
        { einit with
            kind := EventKind.RESIZE
            handled := true
            resizeEvent := { new_width := w, new_height := h } }
        s' [⟨0, 0, w, h⟩] []
  else
    let r := dispatchLoop einit s.components
    TuiOutcome.normal r.1 s [] r.2

/-- `tmt_color_t`: three channel values and a color-class tag
(`TMT_ANSI_COLOR_DEFAULT` is modelled as class tag 0 with zero channels). -/
structure TmtColor where
  chan1 : Nat
  chan2 : Nat
  chan3 : Nat
  cls : Nat
deriving DecidableEq, Repr

/-- The fields of `TMTATTRS` the embedded code touches: the reverse-video
bit and the foreground/background colors (the remaining attribute bits are
collected in `attrbits`, which `writescreen` never reads). -/
structure TMTATTRS where
  reverse : Bool
  fg : TmtColor
  bg : TmtColor
  attrbits : Nat
deriving DecidableEq, Repr

/-- A `TMTCHAR` cell: wchar_t codepoint plus attributes. -/
structure TMTCHAR where
  c : Nat
  a : TMTATTRS
deriving DecidableEq, Repr

/-- A `TMTLINE`: per-line dirty flag and the row of cells. -/
structure TMTLINE where
  dirty : Bool
  chars : List TMTCHAR
deriving DecidableEq, Repr

/-- The `TMTSCREEN` read view: the list of lines. -/
structure TMTSCREEN where
  lines : List TMTLINE
deriving DecidableEq, Repr

/-- The per-cell reverse-video transform of `writescreen`: if the cell's
attributes request reverse video, swap foreground and background and clear
the reverse flag (a local transform on the copy `attrs`; the buffer cell
itself is not written). -/
def effectiveAttrs (a : TMTATTRS) : TMTATTRS :=
  if a.reverse then { a with fg := a.bg, bg := a.fg, reverse := false }
  else a

/-- The byte sequence `sprintf(cbuffer, "�")` leaves in `cbuffer`:
the UTF-8 encoding of the Unicode replacement character U+FFFD. -/
def replacement_bytes : List Nat := [0xEF, 0xBF, 0xBD]

/-- Per-cell character encoding of `writescreen`: `wctomb` (modelled as the
locale's partial encoding function `enc`) either yields the bytes of the
character, or fails (`-1`), in which case the code overwrites `cbuffer`
with the replacement character's bytes. -/
def encodeCell (enc : Nat → Option (List Nat)) (c : Nat) : List Nat :=
  match enc c with
  | some bs => bs
  | none => replacement_bytes

/-- The column loop of `writescreen` over one dirty line: for each cell,
compute the effective attributes (dead in the current source: the
"Apply colors and attributes" step is an empty stub, so only the character
bytes reach the output), encode the character, and append the bytes. -/
def renderLine (enc : Nat → Option (List Nat)) (line : TMTLINE) : List Nat :=
  (line.chars.map (fun ch =>
    let _a := effectiveAttrs ch.a
    encodeCell enc ch.c)).flatten

/-- `writescreen` (lines 348–388): walk the lines; a line whose dirty flag
is clear is skipped (`continue`) and contributes nothing; a dirty line is
rendered cell by cell and its bytes handed to `tmt_write`, modelled as
appending to the emitted byte stream (interpreting those bytes is the
external terminal-buffer collaborator's job).  No statement of the
function writes a line's `dirty` flag (and `tmt_clean` is never called),
so the screen itself is returned unchanged. -/
def writescreen (enc : Nat → Option (List Nat)) (s : TMTSCREEN) :
    TMTSCREEN × List Nat :=
  (s, (s.lines.map (fun line =>
        if line.dirty then renderLine enc line else [])).flatten)

/-- The rotation loop of `raiseComponent` stops at the first occurrence of
`c` and shifts everything before it one slot toward the back: on a tail
containing `c` it produces `tmp` followed by the tail with its first `c`
removed. -/
lemma raiseLoop_eq_erase {α : Type} [DecidableEq α] (c : α) (rest : List α)
    (h : c ∈ rest) : ∀ tmp : α, raiseLoop c tmp rest = tmp :: rest.erase c := by
  induction rest with
  | nil => cases h
  | cons d r ih =>
    intro tmp
    by_cases hd : d = c
    · subst hd
      simp [raiseLoop]
    · have hc : c ∈ r := by
        rcases List.mem_cons.mp h with h1 | h1
        · exact absurd h1.symm hd
        · exact h1
      have hbe : ¬(d == c) = true := by simpa using hd
      simp [raiseLoop, hd, ih hc, List.erase_cons_tail hbe]

/-- `raiseComponent c` on a registry containing `c` moves `c` to slot 0 and
keeps every other component in its original relative order. -/
lemma raiseComponent_eq_cons_erase {α : Type} [DecidableEq α] (c : α)
    (l : List α) (h : c ∈ l) : raiseComponent c l = c :: l.erase c := by
  match l with
  | [] => cases h
  | [t] =>
    have : t = c := by
      have := List.mem_singleton.mp h
      exact this.symm
    subst this
    simp [raiseComponent]
  | t :: u :: rest =>
    by_cases ht : t = c
    · subst ht
      simp [raiseComponent]
    · have hc : c ∈ u :: rest := by
        rcases List.mem_cons.mp h with h1 | h1
        · exact absurd h1.symm ht
        · exact h1
      have hbe : ¬(t == c) = true := by simpa using ht
      simp [raiseComponent, ht, raiseLoop_eq_erase c (u :: rest) hc t,
        List.erase_cons_tail hbe]

/-- C1, counterexample to the claim as stated: on the registry
`[0, 2, 1]` (component 2 present once, not topmost under either reading),
`raiseComponent 2` produces `[2, 0, 1]` — component 2 lands in slot 0, the
FRONT of the list, while the back (topmost) slot holds 1, so the claim
"c is at the back (topmost) slot" is false. -/
theorem C1_counterexample :
    raiseComponent 2 [0, 2, 1] = [2, 0, 1] ∧
    (raiseComponent 2 [0, 2, 1]).getLast? ≠ some 2 := by decide

/-- C1 (amended): for every registry in which component `c` appears,
`raiseComponent c` yields `c` followed by the other components in their
original relative order — the same set of components with the same
cardinality (a permutation, with every multiplicity preserved), `c` in the
FRONT slot (index 0, the slot the dispatch loop considers first) — and the
call is a no-op when `c` is already at the front or the registry has at
most one member. -/
theorem C1_raise_moves_to_front {α : Type} [DecidableEq α] (c : α)
    (l : List α) (h : c ∈ l) :
    raiseComponent c l = c :: l.erase c ∧
    (raiseComponent c l).Perm l ∧
    (raiseComponent c l).length = l.length ∧
    (raiseComponent c l).head? = some c ∧
    (∀ x, (raiseComponent c l).count x = l.count x) ∧
    (l.head? = some c → raiseComponent c l = l) ∧
    (l.length ≤ 1 → raiseComponent c l = l) := by
  have hmain := raiseComponent_eq_cons_erase c l h
  have hperm : (raiseComponent c l).Perm l := by
    rw [hmain]
    exact (List.perm_cons_erase h).symm
  refine ⟨hmain, hperm, hperm.length_eq, by rw [hmain]; rfl,
    fun x => hperm.count_eq x, ?_, ?_⟩
  · intro hhead
    match l, hhead with
    | t :: rest, hhead =>
      have ht : t = c := by simpa using hhead
      subst ht
      rw [hmain, List.erase_cons_head]
  · intro hlen
    match l, h with
    | [t], h =>
      have ht : t = c := (List.mem_singleton.mp h).symm
      subst ht
      rw [hmain, List.erase_cons_head]
    | t :: u :: rest, h => simp at hlen

/-- Witness for C1: the amended theorem applied to the concrete registry
`[0, 2, 1]` with `c = 2`. -/
theorem C1_raise_moves_to_front_witness :
    (2 : Nat) ∈ [0, 2, 1] ∧
    raiseComponent 2 [0, 2, 1] = 2 :: [0, 2, 1].erase 2 :=
  ⟨by decide, (C1_raise_moves_to_front 2 [0, 2, 1] (by decide)).1⟩

/-- For a MOUSE event, the first loop index at which the dispatch loop
(started at index `i`) invokes a handler is the first index, counting from
the front, of a component that has an `onClick` handler and whose
rectangle contains the pointer. -/
lemma dispatchLoopAux_mouse_head (eh : Bool) (er : ResizeEvent)
    (em : MouseEvent) (eke : KeyEvent) (l : List Component) :
    ∀ i : Nat,
      (dispatchLoopAux ⟨eh, EventKind.MOUSE, er, em, eke⟩ i l).2.head? =
        l.findIdx? (mouseEligible ⟨eh, EventKind.MOUSE, er, em, eke⟩) i := by
  induction l with
  | nil =>
    intro i
    simp [dispatchLoopAux, List.findIdx?_nil]
  | cons comp rest ih =>
    intro i
    rw [List.findIdx?_cons]
    rcases hclick : comp.onClick with _ | f
    · have helig : mouseEligible ⟨eh, EventKind.MOUSE, er, em, eke⟩ comp
          = false := by
        simp [mouseEligible, hclick]
      rw [helig]
      simp only [Bool.false_eq_true, if_false]
      have hstep :
          dispatchLoopAux ⟨eh, EventKind.MOUSE, er, em, eke⟩ i (comp :: rest)
            = dispatchLoopAux ⟨eh, EventKind.MOUSE, er, em, eke⟩ (i + 1)
                rest := by
        simp [dispatchLoopAux, hclick]
      rw [hstep, ih]
    · by_cases hin : inComponent comp em.mouse_x em.mouse_y = true
      · have helig : mouseEligible ⟨eh, EventKind.MOUSE, er, em, eke⟩ comp
            = true := by
          simp [mouseEligible, hclick, hin]
        rw [helig, if_pos rfl]
        by_cases hr : f em = true
        · simp [dispatchLoopAux, hclick, hin, hr]
        · simp [dispatchLoopAux, hclick, hin, hr]
      · have helig : mouseEligible ⟨eh, EventKind.MOUSE, er, em, eke⟩ comp
            = false := by
          simp [mouseEligible, hclick]
          simpa using hin
        rw [helig]
        simp only [Bool.false_eq_true, if_false]
        have hstep :
            dispatchLoopAux ⟨eh, EventKind.MOUSE, er, em, eke⟩ i (comp :: rest)
              = dispatchLoopAux ⟨eh, EventKind.MOUSE, er, em, eke⟩ (i + 1)
                  rest := by
          simp [dispatchLoopAux, hclick, hin]
        rw [hstep, ih]

/-- For a KEY event, the first loop index at which the dispatch loop
invokes a handler is the first index, counting from the front, of a
component that has an `onKeypress` handler. -/
lemma dispatchLoopAux_key_head (eh : Bool) (er : ResizeEvent)
    (em : MouseEvent) (eke : KeyEvent) (l : List Component) :
    ∀ i : Nat,
      (dispatchLoopAux ⟨eh, EventKind.KEY, er, em, eke⟩ i l).2.head? =
        l.findIdx? keyEligible i := by
  induction l with
  | nil =>
    intro i
    simp [dispatchLoopAux, List.findIdx?_nil]
  | cons comp rest ih =>
    intro i
    rw [List.findIdx?_cons]
    rcases hkey : comp.onKeypress with _ | f
    · have helig : keyEligible comp = false := by simp [keyEligible, hkey]
      rw [helig]
      simp only [Bool.false_eq_true, if_false]
      have hstep :
          dispatchLoopAux ⟨eh, EventKind.KEY, er, em, eke⟩ i (comp :: rest)
            = dispatchLoopAux ⟨eh, EventKind.KEY, er, em, eke⟩ (i + 1)
                rest := by
        simp [dispatchLoopAux, hkey]
      rw [hstep, ih]
    · have helig : keyEligible comp = true := by simp [keyEligible, hkey]
      rw [helig, if_pos rfl]
      by_cases hr : f eke = true
      · simp [dispatchLoopAux, hkey, hr]
      · simp [dispatchLoopAux, hkey, hr]

/-- Every index the dispatch loop (started at `i`) records is at least `i`,
and the recorded trace is strictly increasing: handlers are invoked
front-to-back through the registry. -/
lemma dispatchLoopAux_trace_mono (l : List Component) :
    ∀ (e : Event) (i : Nat),
      (∀ x ∈ (dispatchLoopAux e i l).2, i ≤ x) ∧
      (dispatchLoopAux e i l).2.Chain' (· < ·) := by
  induction l with
  | nil =>
    intro e i
    simp [dispatchLoopAux]
  | cons comp rest ih =>
    intro e i
    obtain ⟨eh, ek, er, em, eke⟩ := e
    have hskip : ∀ e' : Event,
        (∀ x ∈ (dispatchLoopAux e' (i + 1) rest).2, i ≤ x) ∧
        (dispatchLoopAux e' (i + 1) rest).2.Chain' (· < ·) := by
      intro e'
      refine ⟨fun x hx => ?_, (ih e' (i + 1)).2⟩
      exact Nat.le_of_succ_le ((ih e' (i + 1)).1 x hx)
    have hrec : ∀ e' : Event,
        (∀ x ∈ i :: (dispatchLoopAux e' (i + 1) rest).2, i ≤ x) ∧
        (i :: (dispatchLoopAux e' (i + 1) rest).2).Chain' (· < ·) := by
      intro e'
      constructor
      · intro x hx
        rcases List.mem_cons.mp hx with h1 | h1
        · exact h1.ge
        · exact Nat.le_of_succ_le ((ih e' (i + 1)).1 x h1)
      · refine List.chain'_cons'.mpr ⟨fun y hy => ?_, (ih e' (i + 1)).2⟩
        exact Nat.lt_of_succ_le ((ih e' (i + 1)).1 y (List.mem_of_mem_head? hy))
    cases ek with
    | KEY =>
      rcases hkey : comp.onKeypress with _ | f
      · simpa [dispatchLoopAux, hkey] using hskip _
      · by_cases hr : f eke = true
        · simp [dispatchLoopAux, hkey, hr]
        · simpa [dispatchLoopAux, hkey, hr] using hrec _
    | MOUSE =>
      rcases hclick : comp.onClick with _ | f
      · simpa [dispatchLoopAux, hclick] using hskip _
      · by_cases hin : inComponent comp em.mouse_x em.mouse_y = true
        · by_cases hr : f em = true
          · simp [dispatchLoopAux, hclick, hin, hr]
          · simpa [dispatchLoopAux, hclick, hin, hr] using hrec _
        · simpa [dispatchLoopAux, hclick, hin] using hskip _
    | END => simpa [dispatchLoopAux] using hskip _
    | RESIZE => simpa [dispatchLoopAux] using hskip _

/-- If no component's rectangle contains the pointer, the dispatch loop on
a MOUSE event invokes nothing and leaves the event untouched. -/
lemma dispatchLoopAux_mouse_nohit (eh : Bool) (er : ResizeEvent)
    (em : MouseEvent) (eke : KeyEvent) (l : List Component)
    (hno : ∀ c ∈ l, inComponent c em.mouse_x em.mouse_y = false) :
    ∀ i : Nat,
      dispatchLoopAux ⟨eh, EventKind.MOUSE, er, em, eke⟩ i l =
        (⟨eh, EventKind.MOUSE, er, em, eke⟩, []) := by
  induction l with
  | nil =>
    intro i
    simp [dispatchLoopAux]
  | cons comp rest ih =>
    intro i
    have hinc : inComponent comp em.mouse_x em.mouse_y = false :=
      hno comp (List.mem_cons_self comp rest)
    have hrest : ∀ c ∈ rest, inComponent c em.mouse_x em.mouse_y = false :=
      fun c hc => hno c (List.mem_cons_of_mem comp hc)
    rcases hclick : comp.onClick with _ | f
    · simpa [dispatchLoopAux, hclick] using ih hrest (i + 1)
    · simpa [dispatchLoopAux, hclick, hinc] using ih hrest (i + 1)

/-- Registry slot 0 for the C2 counterexample: a component with a click
handler whose rectangle covers (0,0)–(10,10). -/
def c2Front : Component :=
  { pos := ⟨0, 0, 10, 10⟩, onClick := some (fun _ => true),
    onKeypress := none }

/-- Registry back slot for the C2 counterexample: a component with a click
handler whose rectangle covers (5,5)–(15,15). -/
def c2Back : Component :=
  { pos := ⟨5, 5, 10, 10⟩, onClick := some (fun _ => true),
    onKeypress := none }

/-- A MOUSE event at (6,6), a point inside both counterexample rectangles. -/
def c2Event : Event :=
  { handled := false, kind := EventKind.MOUSE, resizeEvent := ⟨0, 0⟩,
    mouseEvent := { mouse_x := 6, mouse_y := 6,
                    mouse_action := MouseAction.button1 },
    keyEvent := ⟨0⟩ }

/-- C2, counterexample to the claim as stated: both components' rectangles
contain the pointer (6,6) and both have click handlers, yet the dispatch
loop invokes the handler of the component at index 0 — the FRONT of the
registry — not the one closer to the back (index 1): the invocation trace
is `[0]`. -/
theorem C2_counterexample :
    inComponent c2Front 6 6 = true ∧
    inComponent c2Back 6 6 = true ∧
    (dispatchLoop c2Event [c2Front, c2Back]).2 = [0] ∧
    (dispatchLoop c2Event [c2Front, c2Back]).2.head? ≠ some 1 :=
  ⟨by decide, by decide, rfl, by
    rw [show (dispatchLoop c2Event [c2Front, c2Back]).2 = [0] from rfl]
    simp⟩

/-- C2 (amended): `handle_event`'s dispatch loop considers components in
FRONT-first order (from index 0 toward the back of the registry): for a
MOUSE event the first handler invoked belongs to the frontmost component
that has a click handler and whose rectangle contains the pointer, and a
point contained in no component's rectangle causes no invocation at all
and leaves the event untouched; for a KEY event the first handler invoked
belongs to the frontmost component with a keypress handler; in every case
the invocation trace is strictly increasing in registry index. -/
theorem C2_dispatch_front_first (e : Event) (l : List Component) :
    (e.kind = EventKind.MOUSE →
      (dispatchLoop e l).2.head? = l.findIdx? (mouseEligible e) ∧
      ((∀ c ∈ l,
          inComponent c e.mouseEvent.mouse_x e.mouseEvent.mouse_y = false) →
        dispatchLoop e l = (e, []))) ∧
    (e.kind = EventKind.KEY →
      (dispatchLoop e l).2.head? = l.findIdx? keyEligible) ∧
    (dispatchLoop e l).2.Chain' (· < ·) := by
  obtain ⟨eh, ek, er, em, eke⟩ := e
  refine ⟨?_, ?_, (dispatchLoopAux_trace_mono l _ 0).2⟩
  · intro hk
    change ek = EventKind.MOUSE at hk
    subst hk
    exact ⟨dispatchLoopAux_mouse_head eh er em eke l 0,
      fun hno => dispatchLoopAux_mouse_nohit eh er em eke l hno 0⟩
  · intro hk
    change ek = EventKind.KEY at hk
    subst hk
    exact dispatchLoopAux_key_head eh er em eke l 0

/-- Witness for C2: the amended theorem applied to the concrete MOUSE
event at (6,6) and the two-component registry; the head of the invocation
trace is the index found front-first. -/
theorem C2_dispatch_front_first_witness :
    (dispatchLoop c2Event [c2Front, c2Back]).2.head? =
      [c2Front, c2Back].findIdx? (mouseEligible c2Event) :=
  ((C2_dispatch_front_first c2Event [c2Front, c2Back]).1 rfl).1

/-- An active runtime state with a root component assigned, both latches
clear and an empty registry, for exercising the guards of `handle_event`. -/
def c3State : GlobalState :=
  { active := true, exiting := false, needs_resize := false,
    window_width := 80, window_height := 24, rootAssigned := true,
    components := [], saved_tio := 0, saved_sigint := 0, saved_sigterm := 0,
    saved_sigwinch := 0, saved_locale := 0, term := ⟨0, 0, 0, 0, 0⟩ }

/-- The same state with no root component assigned. -/
def c3StateNoRoot : GlobalState := { c3State with rootAssigned := false }

/-- An arbitrary value for the uninitialized local `Event e`. -/
def c3Event : Event :=
  { handled := false, kind := EventKind.KEY, resizeEvent := ⟨0, 0⟩,
    mouseEvent := ⟨0, 0, MouseAction.move⟩, keyEvent := ⟨0⟩ }

/-- C3, code bug: the root-component guard of `handle_event` is inverted
(`if (tui_globalcontext.rootComponent) tui_error("Tui is not active.")`).
While active WITH a root component assigned, the call is treated as a
fatal error instead of proceeding to dispatch; while active with NO root
component assigned, the call proceeds to normal dispatch instead of being
treated as a fatal error.  (The two `tui_error` message strings are also
swapped relative to the conditions they report.) -/
theorem C3_guard_inverted :
    handle_event c3State (80, 24) c3Event =
      TuiOutcome.fatal "Tui is not active." ∧
    handle_event c3StateNoRoot (80, 24) c3Event =
      TuiOutcome.normal c3Event c3StateNoRoot [] [] :=
  ⟨rfl, rfl⟩

/-- An active runtime state with a root component assigned, `exiting`
clear and the `needs_resize` latch set. -/
def c4State : GlobalState :=
  { active := true, exiting := false, needs_resize := true,
    window_width := 80, window_height := 24, rootAssigned := true,
    components := [], saved_tio := 0, saved_sigint := 0, saved_sigterm := 0,
    saved_sigwinch := 0, saved_locale := 0, term := ⟨0, 0, 0, 0, 0⟩ }

/-- An arbitrary value for the uninitialized local `Event e`. -/
def c4Event : Event :=
  { handled := false, kind := EventKind.END, resizeEvent := ⟨0, 0⟩,
    mouseEvent := ⟨0, 0, MouseAction.move⟩, keyEvent := ⟨0⟩ }

/-- C4, code bug: in the state the claim describes (active, root assigned,
`exiting` clear, `needs_resize` set, freshly queried size 120×40) the call
never reaches the resize path: the inverted root-component guard turns it
into a fatal error.  And in the only state that can reach the resize path
(root NOT assigned), the code calls `resize` through the NULL root
pointer. -/
theorem C4_resize_unreachable :
    handle_event c4State (120, 40) c4Event =
      TuiOutcome.fatal "Tui is not active." ∧
    handle_event { c4State with rootAssigned := false } (120, 40) c4Event =
      TuiOutcome.nullDeref :=
  ⟨rfl, rfl⟩

/-- C5: the containment test used for hit-testing is inclusive on both the
low and the high edge of each axis — `inComponent c px py` holds exactly
when `px ∈ [x, x + width]` and `py ∈ [y, y + height]` — and in particular
a point with `px` exactly equal to `x + width` (and `py` in range) is
still inside. -/
theorem C5_inComponent_inclusive (c : Component) (px py : Nat) :
    (inComponent c px py = true ↔
      (c.pos.x ≤ px ∧ px ≤ c.pos.x + c.pos.width ∧
       c.pos.y ≤ py ∧ py ≤ c.pos.y + c.pos.height)) ∧
    (c.pos.y ≤ py → py ≤ c.pos.y + c.pos.height →
      inComponent c (c.pos.x + c.pos.width) py = true) := by
  constructor
  · simp [inComponent, and_assoc]
  · intro h1 h2
    simp [inComponent, h1, h2]

/-- Witness for C5: a concrete 5×4 rectangle at (2,3); the point
(2 + 5, 3) on the high x-edge is inside. -/
theorem C5_inComponent_inclusive_witness :
    inComponent { pos := ⟨2, 3, 5, 4⟩, onClick := none, onKeypress := none }
      (2 + 5) 3 = true :=
  (C5_inComponent_inclusive
    { pos := ⟨2, 3, 5, 4⟩, onClick := none, onKeypress := none }
    (2 + 5) 3).2 (by decide) (by decide)

/-- C6: `tui_deinit` is idempotent — a call on an inactive runtime leaves
all state unchanged and performs no terminal or signal-handler writes; any
call leaves the runtime inactive, so a second call is always a no-op; and
a call on an active runtime restores the saved terminal mode, signal
handlers and locale and performs exactly the six teardown writes, once, in
program order. -/
theorem C6_deinit_idempotent (s : GlobalState) :
    (s.active = false → tui_deinit s = (s, [])) ∧
    (tui_deinit s).1.active = false ∧
    tui_deinit (tui_deinit s).1 = ((tui_deinit s).1, []) ∧
    (s.active = true →
      (tui_deinit s).1.term =
        { tio := s.saved_tio, sigint := s.saved_sigint,
          sigterm := s.saved_sigterm, sigwinch := s.saved_sigwinch,
          locale := s.saved_locale } ∧
      (tui_deinit s).2 =
        [SideEffect.setSignalInt s.saved_sigint,
         SideEffect.setSignalTerm s.saved_sigterm,
         SideEffect.setSignalWinch s.saved_sigwinch,
         SideEffect.setTermAttrs s.saved_tio,
         SideEffect.setLocale s.saved_locale,
         SideEffect.writeRestoreSeq]) := by
  cases hs : s.active with
  | false => simp [tui_deinit, hs]
  | true => simp [tui_deinit, hs]

/-- A concrete active global state for the C6 witness. -/
def c6State : GlobalState :=
  { active := true, exiting := false, needs_resize := false,
    window_width := 80, window_height := 24, rootAssigned := false,
    components := [], saved_tio := 1, saved_sigint := 2, saved_sigterm := 3,
    saved_sigwinch := 4, saved_locale := 5,
    term := { tio := 10, sigint := 11, sigterm := 12, sigwinch := 13,
              locale := 14 } }

/-- Witness for C6: on the concrete active state, the first `tui_deinit`
restores the saved terminal environment and emits exactly the six teardown
writes. -/
theorem C6_deinit_idempotent_witness :
    (tui_deinit c6State).1.term =
      { tio := c6State.saved_tio, sigint := c6State.saved_sigint,
        sigterm := c6State.saved_sigterm, sigwinch := c6State.saved_sigwinch,
        locale := c6State.saved_locale } ∧
    (tui_deinit c6State).2 =
      [SideEffect.setSignalInt c6State.saved_sigint,
       SideEffect.setSignalTerm c6State.saved_sigterm,
       SideEffect.setSignalWinch c6State.saved_sigwinch,
       SideEffect.setTermAttrs c6State.saved_tio,
       SideEffect.setLocale c6State.saved_locale,
       SideEffect.writeRestoreSeq] :=
  (C6_deinit_idempotent c6State).2.2.2 rfl

/-- Default-style attributes for the C7 screen. -/
def c7Attrs : TMTATTRS :=
  { reverse := false, fg := ⟨0, 0, 0, 0⟩, bg := ⟨0, 0, 0, 0⟩, attrbits := 0 }

/-- A two-line screen whose first line is dirty (one cell, codepoint 65)
and whose second line is clean (one cell, codepoint 66). -/
def c7Screen : TMTSCREEN :=
  { lines := [{ dirty := true, chars := [⟨65, c7Attrs⟩] },
              { dirty := false, chars := [⟨66, c7Attrs⟩] }] }

/-- An identity-style single-byte encoding for the C7 screen. -/
def c7Enc : Nat → Option (List Nat) := fun c => some [c % 256]

/-- C7, code bug: after a full `writescreen` pass over the two-line screen,
the line that was visited because its dirty flag was set is STILL dirty —
no statement of `writescreen` clears a dirty flag and `tmt_clean` is never
called — contradicting "every visited line is marked clean".  The parts of
the claim about clean lines do hold: the screen is returned entirely
unmodified and the emitted bytes `[65]` come only from the dirty line —
the clean line produced zero output. -/
theorem C7_dirty_not_cleared :
    (writescreen c7Enc c7Screen).1 = c7Screen ∧
    (writescreen c7Enc c7Screen).1.lines.map TMTLINE.dirty = [true, false] ∧
    (writescreen c7Enc c7Screen).2 = [65] :=
  ⟨rfl, rfl, rfl⟩

/-- A component with a rectangle but neither a click nor a keypress
handler, for the C8 registry. -/
def c8Comp : Component :=
  { pos := ⟨0, 0, 10, 10⟩, onClick := none, onKeypress := none }

/-- An active runtime state (root unassigned, as the inverted guard
requires to reach dispatch) whose registry holds only `c8Comp`. -/
def c8State : GlobalState :=
  { active := true, exiting := false, needs_resize := false,
    window_width := 80, window_height := 24, rootAssigned := false,
    components := [c8Comp], saved_tio := 0, saved_sigint := 0,
    saved_sigterm := 0, saved_sigwinch := 0, saved_locale := 0,
    term := ⟨0, 0, 0, 0, 0⟩ }

/-- The uninitialized local `Event e` at entry to the raw-input path,
holding `handled = true` and `kind = KEY` as its arbitrary stack value. -/
def c8Event : Event :=
  { handled := true, kind := EventKind.KEY, resizeEvent := ⟨0, 0⟩,
    mouseEvent := ⟨0, 0, MouseAction.move⟩, keyEvent := ⟨97⟩ }

/-- C8, code bug: with no component holding a keypress handler, the
dispatch loop invokes nothing (empty invocation trace — the no-mutation
part of the claim holds) and never assigns `e.handled`; since the local
event is never initialized on the raw-input path, `handle_event` returns
it unchanged, so the returned `handled` flag is whatever the uninitialized
local held — here `true`, not the `false` the claim requires. -/
theorem C8_handled_uninitialized :
    handle_event c8State (80, 24) c8Event =
      TuiOutcome.normal c8Event c8State [] [] ∧
    c8Event.handled = true ∧
    c8Event.kind = EventKind.KEY ∧
    c8Comp.onKeypress = none :=
  ⟨rfl, rfl, rfl, rfl⟩

/-- C9: when the wide-to-multibyte conversion fails for a cell character
(`wctomb` returns −1), the bytes emitted for that cell are exactly the
UTF-8 encoding of the Unicode replacement character U+FFFD — three bytes
`EF BF BD`, one replacement glyph, independent of which unencodable
character was being encoded, with no raw or partial bytes of it. -/
theorem C9_replacement_char (enc : Nat → Option (List Nat)) (c : Nat)
    (a : TMTATTRS) (h : enc c = none) :
    encodeCell enc c = replacement_bytes ∧
    renderLine enc { dirty := true, chars := [{ c := c, a := a }] } =
      replacement_bytes ∧
    (∀ c', enc c' = none → encodeCell enc c' = encodeCell enc c) ∧
    replacement_bytes = [0xEF, 0xBF, 0xBD] := by
  refine ⟨?_, ?_, ?_, rfl⟩
  · simp [encodeCell, h]
  · simp [renderLine, encodeCell, h]
  · intro c' h'
    simp [encodeCell, h, h']

/-- A locale encoding that rejects every character, for the C9 witness. -/
def c9Enc : Nat → Option (List Nat) := fun _ => none

/-- Witness for C9: encoding the (unrepresentable) codepoint 0x110000
under the rejecting encoding yields exactly the replacement bytes. -/
theorem C9_replacement_char_witness :
    encodeCell c9Enc 0x110000 = replacement_bytes :=
  (C9_replacement_char c9Enc 0x110000 c7Attrs rfl).1

/-- An active runtime state reaching the raw-input path with an empty
registry, for C10. -/
def c10State : GlobalState :=
  { active := true, exiting := false, needs_resize := false,
    window_width := 80, window_height := 24, rootAssigned := false,
    components := [], saved_tio := 0, saved_sigint := 0, saved_sigterm := 0,
    saved_sigwinch := 0, saved_locale := 0, term := ⟨0, 0, 0, 0, 0⟩ }

/-- One possible garbage value of the uninitialized local event. -/
def c10EventA : Event :=
  { handled := true, kind := EventKind.KEY, resizeEvent := ⟨0, 0⟩,
    mouseEvent := ⟨0, 0, MouseAction.move⟩, keyEvent := ⟨0⟩ }

/-- Another possible garbage value of the uninitialized local event. -/
def c10EventB : Event :=
  { handled := false, kind := EventKind.MOUSE, resizeEvent := ⟨0, 0⟩,
    mouseEvent := ⟨3, 3, MouseAction.button2⟩, keyEvent := ⟨0⟩ }

/-- C10, code bug: on the raw-input path the local `Event e` is read
(`e.kind` in the loop, and the returned value) without ever having been
assigned — the event-acquisition step is an empty stub — so the event
returned from that path is whatever the uninitialized local held: two
different arbitrary initial values produce returned events with different
`kind` and different `handled`, i.e. the result is not determinate. -/
theorem C10_event_uninitialized :
    handle_event c10State (80, 24) c10EventA =
      TuiOutcome.normal c10EventA c10State [] [] ∧
    handle_event c10State (80, 24) c10EventB =
      TuiOutcome.normal c10EventB c10State [] [] ∧
    c10EventA.kind ≠ c10EventB.kind ∧
    c10EventA.handled ≠ c10EventB.handled :=
  ⟨rfl, rfl, by decide, by decide⟩
